import Mathlib

/-!
Shallow embedding of the fire-api gateway (src/app/main.py and src/app/utils.py):
miner selection from a chain-state snapshot, Epistula v2 header signing, the
fan-out first-success race, the metagraph cache, and the response proxying of
the completion endpoint, together with proofs of the specified properties.

External library primitives (the chain client, random.sample, hashing, signing,
the HTTP client and the clock) are modelled as explicit parameters; the code of
the repository itself is translated directly.
-/

namespace FireApi

/-- A worker endpoint (ip and port), as exposed per index by the chain snapshot
(metagraph.axons). -/
structure Axon where
  ip : String
  port : Nat
deriving Repr, DecidableEq, Inhabited

/-- A chain-state snapshot ("metagraph"): per registered worker index an incentive
score (metagraph.I), a hotkey string (metagraph.hotkeys) and an endpoint
(metagraph.axons).  Incentive scores are real-valued in the source; they are
modelled as rationals, preserving the ordering behaviour selection depends on. -/
structure Metagraph where
  I : List Rat
  hotkeys : List String
  axons : List Axon
deriving Repr

/-- A selected miner, as built by get_top_miners:
SimpleNamespace(hotkey=..., endpoint=..., address=...). -/
structure Miner where
  hotkey : String
  endpoint : Axon
  address : String
deriving Repr, DecidableEq, Inhabited

/-- The sort key used in get_top_miners: incentives[i].  Out-of-range reads
default to 0; every index used by the code is in range. -/
def minerKey (metagraph : Metagraph) (i : Nat) : Rat :=
  metagraph.I.getD i 0

/-- The ordering of sorted(range(len(incentives)), key=lambda i: incentives[i],
reverse=True): index i may precede index j exactly when incentives[i] is at
least incentives[j]. -/
def incAbove (metagraph : Metagraph) (i j : Nat) : Prop :=
  minerKey metagraph j ≤ minerKey metagraph i

instance (metagraph : Metagraph) : DecidableRel (incAbove metagraph) :=
  fun i j => inferInstanceAs (Decidable (minerKey metagraph j ≤ minerKey metagraph i))

/-- sorted_indices of get_top_miners: all worker indices sorted stably by
incentive, descending.  Insertion sort is a stable sort, and a stable sort of a
list under a total preorder has a unique output, so this agrees with the Python
sorted(..., reverse=True). -/
def sorted_indices (metagraph : Metagraph) : List Nat :=
  List.insertionSort (incAbove metagraph) (List.range metagraph.I.length)

/-- top_50_percent_count = len(sorted_indices) // 2. -/
def top_50_percent_count (metagraph : Metagraph) : Nat :=
  (sorted_indices metagraph).length / 2

/-- top_miners_indices = sorted_indices[:top_50_percent_count]. -/
def top_miners_indices (metagraph : Metagraph) : List Nat :=
  (sorted_indices metagraph).take (top_50_percent_count metagraph)

/-- The Miner built from one sampled index: hotkey, endpoint and the base URL
string "http:" ++ "//" ++ ip ++ ":" ++ port taken from that index. -/
def mkMiner (metagraph : Metagraph) (i : Nat) : Miner :=
  { hotkey := metagraph.hotkeys.getD i ""
    endpoint := metagraph.axons.getD i default
    address := "http://" ++ (metagraph.axons.getD i default).ip ++ ":"
      ++ toString (metagraph.axons.getD i default).port }

/-- get_top_miners of src/app/utils.py.  The external primitive random.sample is
passed in as `sample`; per its library contract it returns k elements chosen
without replacement from the population, and raises ValueError when k exceeds
the population size — modelled as an Option-valued function, with none for the
raising case.  The three comprehensions and the zip of the source are kept. -/
def get_top_miners (sample : List Nat → Nat → Option (List Nat))
    (metagraph : Metagraph) (n : Nat) : Option (List Miner) :=
  match sample (top_miners_indices metagraph) n with
  | none => none
  | some top_miner_uids =>
    let top_miner_hotkeys := top_miner_uids.map (fun i => metagraph.hotkeys.getD i "")
    let top_miner_endpoints := top_miner_uids.map (fun i => metagraph.axons.getD i default)
    let top_miner_addresses := top_miner_uids.map (fun idx =>
      "http://" ++ (metagraph.axons.getD idx default).ip ++ ":"
        ++ toString (metagraph.axons.getD idx default).port)
    some ((top_miner_hotkeys.zip (top_miner_endpoints.zip top_miner_addresses)).map
      (fun p => { hotkey := p.1, endpoint := p.2.1, address := p.2.2 }))

/-- A sampling function obeying the random.sample contract, used to instantiate
theorems on concrete inputs: it deterministically picks the first k elements. -/
def sampleTake (population : List Nat) (k : Nat) : Option (List Nat) :=
  if k ≤ population.length then some (population.take k) else none

/-- A concrete four-worker snapshot used to instantiate theorems. -/
def exampleMetagraph : Metagraph :=
  { I := [1, 3, 2, 0]
    hotkeys := ["hk0", "hk1", "hk2", "hk3"]
    axons := [⟨"10.0.0.1", 81⟩, ⟨"10.0.0.2", 82⟩, ⟨"10.0.0.3", 83⟩, ⟨"10.0.0.4", 84⟩] }

lemma length_sorted_indices (metagraph : Metagraph) :
    (sorted_indices metagraph).length = metagraph.I.length := by
  simp [sorted_indices, List.length_insertionSort]

lemma length_top_miners_indices (metagraph : Metagraph) :
    (top_miners_indices metagraph).length = metagraph.I.length / 2 := by
  simp [top_miners_indices, top_50_percent_count, length_sorted_indices]
  omega

lemma incAbove_isTotal (metagraph : Metagraph) : IsTotal Nat (incAbove metagraph) :=
  ⟨fun a b => (le_total (minerKey metagraph b) (minerKey metagraph a)).imp id id⟩

lemma incAbove_isTrans (metagraph : Metagraph) : IsTrans Nat (incAbove metagraph) :=
  ⟨fun _ _ _ hab hbc => le_trans hbc hab⟩

/-- C2: the eligible pool drawn from in get_top_miners has exactly ⌊M/2⌋ worker
indices, and every index in the pool has an incentive score at least the score
of every excluded registered index. -/
theorem top_half_selection (metagraph : Metagraph) :
    (top_miners_indices metagraph).length = metagraph.I.length / 2 ∧
    ∀ i ∈ top_miners_indices metagraph, ∀ j, j < metagraph.I.length →
      j ∉ top_miners_indices metagraph →
      minerKey metagraph j ≤ minerKey metagraph i := by
  refine ⟨length_top_miners_indices metagraph, ?_⟩
  intro i hi j hj hjout
  haveI := incAbove_isTotal metagraph
  haveI := incAbove_isTrans metagraph
  have hperm := List.perm_insertionSort (incAbove metagraph) (List.range metagraph.I.length)
  have hsorted : (sorted_indices metagraph).Pairwise (incAbove metagraph) :=
    List.sorted_insertionSort (incAbove metagraph) (List.range metagraph.I.length)
  have hjmem : j ∈ sorted_indices metagraph := by
    exact hperm.mem_iff.mpr (List.mem_range.mpr hj)
  have hsplit := List.take_append_drop (top_50_percent_count metagraph) (sorted_indices metagraph)
  have hjdrop : j ∈ (sorted_indices metagraph).drop (top_50_percent_count metagraph) := by
    rcases List.mem_append.mp (by rw [hsplit]; exact hjmem) with hcase | hcase
    · exact absurd hcase hjout
    · exact hcase
  have hpair : ((sorted_indices metagraph).take (top_50_percent_count metagraph) ++
      (sorted_indices metagraph).drop (top_50_percent_count metagraph)).Pairwise
      (incAbove metagraph) := by
    rw [hsplit]; exact hsorted
  exact (List.pairwise_append.mp hpair).2.2 i hi j hjdrop

/-- Witness for C2 on the concrete snapshot: the pool there is [1, 2] and the
excluded index 0 scores no more than pool member 1. -/
theorem top_half_selection_witness :
    (top_miners_indices exampleMetagraph).length = exampleMetagraph.I.length / 2 ∧
    minerKey exampleMetagraph 0 ≤ minerKey exampleMetagraph 1 :=
  ⟨(top_half_selection exampleMetagraph).1,
   (top_half_selection exampleMetagraph).2 1 (by decide) 0 (by decide) (by decide)⟩

/-- A snapshot whose two top-half workers share one hotkey and one endpoint, so
the two Miner values built from the two distinct sampled indices coincide. -/
def dupMetagraph : Metagraph :=
  { I := [5, 5, 1, 0]
    hotkeys := ["h", "h", "a", "b"]
    axons := [⟨"1.1.1.1", 1⟩, ⟨"1.1.1.1", 1⟩, ⟨"1.1.1.3", 3⟩, ⟨"1.1.1.4", 4⟩] }

lemma get_top_miners_eq_map (sample : List Nat → Nat → Option (List Nat))
    (metagraph : Metagraph) (n : Nat) (uids : List Nat)
    (hs : sample (top_miners_indices metagraph) n = some uids) :
    get_top_miners sample metagraph n = some (uids.map (mkMiner metagraph)) := by
  have key : ∀ l : List Nat,
      ((l.map (fun i => metagraph.hotkeys.getD i "")).zip
        ((l.map (fun i => metagraph.axons.getD i default)).zip
          (l.map (fun idx => "http://" ++ (metagraph.axons.getD idx default).ip ++ ":"
            ++ toString (metagraph.axons.getD idx default).port)))).map
        (fun p => ({ hotkey := p.1, endpoint := p.2.1, address := p.2.2 } : Miner))
        = l.map (mkMiner metagraph) := by
    intro l
    induction l with
    | nil => rfl
    | cons u us ih => simpa [mkMiner] using ih
  simp only [get_top_miners, hs]
  rw [key uids]

/-- C3 counterexample: with a sample obeying the without-replacement contract
(the two sampled indices 0 and 1 are distinct members of the eligible pool),
get_top_miners returns a list whose two Miner values are equal, so the returned
list is not duplicate-free. -/
theorem miners_distinct_counterexample :
    sampleTake (top_miners_indices dupMetagraph) 2 = some [0, 1] ∧
    ([0, 1] : List Nat).Nodup ∧
    (0 ∈ top_miners_indices dupMetagraph ∧ 1 ∈ top_miners_indices dupMetagraph) ∧
    get_top_miners sampleTake dupMetagraph 2 =
      some [⟨"h", ⟨"1.1.1.1", 1⟩, "http://1.1.1.1:1"⟩,
            ⟨"h", ⟨"1.1.1.1", 1⟩, "http://1.1.1.1:1"⟩] ∧
    ¬ ([(⟨"h", ⟨"1.1.1.1", 1⟩, "http://1.1.1.1:1"⟩ : Miner),
        ⟨"h", ⟨"1.1.1.1", 1⟩, "http://1.1.1.1:1"⟩].Nodup) := by
  decide

/-- C3 amended: when the sampling primitive returns N indices chosen without
replacement from the eligible pool, get_top_miners returns exactly N Miner
entries, the k-th built by mkMiner from the k-th sampled index (hotkey,
endpoint and base URL all taken from that same index, in sampling order); the
sampled indices are distinct, though the built Miner values may coincide when
distinct workers share hotkey and endpoint. -/
theorem get_top_miners_sample (sample : List Nat → Nat → Option (List Nat))
    (metagraph : Metagraph) (n : Nat) (uids : List Nat)
    (hs : sample (top_miners_indices metagraph) n = some uids)
    (hlen : uids.length = n) (hnd : uids.Nodup)
    (_hmem : ∀ u ∈ uids, u ∈ top_miners_indices metagraph) :
    get_top_miners sample metagraph n = some (uids.map (mkMiner metagraph)) ∧
    (uids.map (mkMiner metagraph)).length = n ∧ uids.Nodup :=
  ⟨get_top_miners_eq_map sample metagraph n uids hs,
   by rw [List.length_map, hlen], hnd⟩

/-- Witness for the amended C3 on the concrete snapshot: the pool is [1, 2],
the sample picks both, and both miners are built from their own index. -/
theorem get_top_miners_sample_witness :
    get_top_miners sampleTake exampleMetagraph 2 =
      some ([1, 2].map (mkMiner exampleMetagraph)) ∧
    ([1, 2].map (mkMiner exampleMetagraph)).length = 2 ∧ ([1, 2] : List Nat).Nodup :=
  get_top_miners_sample sampleTake exampleMetagraph 2 [1, 2]
    (by decide) (by decide) (by decide) (by decide)

/-- C4: when the requested count exceeds the eligible pool size ⌊M/2⌋, the
sampling primitive raises (returns none per the random.sample contract), so
get_top_miners produces no miner list. -/
theorem get_top_miners_insufficient (sample : List Nat → Nat → Option (List Nat))
    (hs : ∀ population k, population.length < k → sample population k = none)
    (metagraph : Metagraph) (n : Nat) (hn : metagraph.I.length / 2 < n) :
    get_top_miners sample metagraph n = none := by
  have h := hs (top_miners_indices metagraph) n
    (by rw [length_top_miners_indices]; exact hn)
  simp [get_top_miners, h]

/-- Witness for C4: asking for 3 miners from the 4-worker snapshot, whose pool
has 2 members, yields no list. -/
theorem get_top_miners_insufficient_witness :
    exampleMetagraph.I.length / 2 < 3 ∧
    get_top_miners sampleTake exampleMetagraph 3 = none :=
  ⟨by decide, get_top_miners_insufficient sampleTake
    (fun population k hk => by simp only [sampleTake, if_neg (by omega : ¬ k ≤ population.length)])
    exampleMetagraph 3 (by decide)⟩

/-- A signing keypair: the public ss58 address and the sign primitive of the
external substrate Keypair, mapping a message string to signature bytes.  The
cryptographic internals are external library code and are carried as data. -/
structure Keypair where
  ss58_address : String
  sign : String → List Nat

/-- One lowercase hexadecimal digit (0-9, a-f). -/
def hexDigitChar (n : Nat) : Char :=
  if n < 10 then Char.ofNat (48 + n) else Char.ofNat (87 + n)

/-- Python bytes.hex() on one byte: two lowercase hex digits. -/
def byteHex (b : Nat) : String :=
  String.mk [hexDigitChar ((b / 16) % 16), hexDigitChar (b % 16)]

/-- Python bytes.hex(): the concatenation of the two-digit codes of the bytes. -/
def bytesHex (bs : List Nat) : String :=
  String.join (bs.map byteHex)

/-- Python `signed_for or ""`: the first truthy operand, so the empty string
when signed_for is absent (and also when it is present but empty). -/
def pyOrEmpty : Option String → String
  | none => ""
  | some s => s

/-- Python truthiness of the optional signed_for string, as tested by
`if signed_for:` — false for an absent value and for the empty string. -/
def pyTruthy : Option String → Bool
  | none => false
  | some s => !(s == "")

/-- timestamp_interval = ceil(timestamp / 1e4) * 1e4 of generate_header.  The
source computes this with float division; for timestamps below 10^15 (epoch
milliseconds are near 1.8 * 10^12 today) the float computation is exact and
equals this ceiling division on naturals. -/
def timestampInterval (timestamp : Nat) : Nat :=
  ((timestamp + 9999) / 10000) * 10000

/-- Python str() of the integral float timestamp_interval (1e4 is a float, so
the interval and its neighbours are floats): for integral floats below 10^16
this renders the integer digits followed by a ".0" suffix. -/
def pyFloatIntStr (n : Nat) : String :=
  toString n ++ ".0"

/-- generate_header of src/app/utils.py.  The wall clock and the uuid source
are external, so the timestamp (epoch milliseconds, round(time.time() * 1000))
and the uuid string enter as parameters, as do the external sha256 hex-digest
primitive and the keypair.  The result lists the dict entries in insertion
order.  The modelled timestamp domain is 1 ≤ timestamp < 10^15, where the float
arithmetic of the source is exact and str() renders with the ".0" suffix. -/
def generate_header (sha256hex : List Nat → String) (hotkey : Keypair)
    (body : List Nat) (signed_for : Option String)
    (timestamp : Nat) (uuid : String) : List (String × String) :=
  let timestamp_interval := timestampInterval timestamp
  let headers : List (String × String) := [
    ("Epistula-Version", "2"),
    ("Epistula-Timestamp", toString timestamp),
    ("Epistula-Uuid", uuid),
    ("Epistula-Signed-By", hotkey.ss58_address),
    ("Epistula-Request-Signature", "0x" ++ bytesHex (hotkey.sign
      (sha256hex body ++ "." ++ uuid ++ "." ++ toString timestamp ++ "."
        ++ pyOrEmpty signed_for)))]
  if pyTruthy signed_for then
    headers ++ [
      ("Epistula-Signed-For", pyOrEmpty signed_for),
      ("Epistula-Secret-Signature-0", "0x" ++ bytesHex (hotkey.sign
        (pyFloatIntStr (timestamp_interval - 1) ++ "." ++ pyOrEmpty signed_for))),
      ("Epistula-Secret-Signature-1", "0x" ++ bytesHex (hotkey.sign
        (pyFloatIntStr timestamp_interval ++ "." ++ pyOrEmpty signed_for))),
      ("Epistula-Secret-Signature-2", "0x" ++ bytesHex (hotkey.sign
        (pyFloatIntStr (timestamp_interval + 1) ++ "." ++ pyOrEmpty signed_for)))]
  else headers

/-- C5: the Epistula-Request-Signature header is "0x" followed by the
hex-encoded signature of the string built from the sha256 hex digest of the
body, the uuid, the timestamp and the signed_for value (empty when absent),
joined by dots; the value is a function of exactly these inputs. -/
theorem request_signature_format (sha256hex : List Nat → String) (hotkey : Keypair)
    (body : List Nat) (signed_for : Option String) (timestamp : Nat) (uuid : String) :
    (generate_header sha256hex hotkey body signed_for timestamp uuid).lookup
      "Epistula-Request-Signature" =
      some ("0x" ++ bytesHex (hotkey.sign
        (sha256hex body ++ "." ++ uuid ++ "." ++ toString timestamp ++ "."
          ++ pyOrEmpty signed_for))) := by
  cases hsf : pyTruthy signed_for <;>
    simp [generate_header, hsf, List.lookup]

/-- C10: passing signed_for as the empty string behaves exactly as passing no
signed_for: the same five base headers come back (no Epistula-Signed-For, no
secret-signature headers), and the request-signature message ends in a trailing
dot from the empty signed_for component. -/
theorem empty_signed_for_like_none (sha256hex : List Nat → String) (hotkey : Keypair)
    (body : List Nat) (timestamp : Nat) (uuid : String) :
    generate_header sha256hex hotkey body (some "") timestamp uuid =
      generate_header sha256hex hotkey body none timestamp uuid ∧
    (generate_header sha256hex hotkey body (some "") timestamp uuid).length = 5 ∧
    (generate_header sha256hex hotkey body (some "") timestamp uuid).lookup
      "Epistula-Signed-For" = none ∧
    (generate_header sha256hex hotkey body (some "") timestamp uuid).lookup
      "Epistula-Secret-Signature-0" = none ∧
    (generate_header sha256hex hotkey body (some "") timestamp uuid).lookup
      "Epistula-Secret-Signature-1" = none ∧
    (generate_header sha256hex hotkey body (some "") timestamp uuid).lookup
      "Epistula-Secret-Signature-2" = none ∧
    (generate_header sha256hex hotkey body (some "") timestamp uuid).lookup
      "Epistula-Request-Signature" =
      some ("0x" ++ bytesHex (hotkey.sign
        (sha256hex body ++ "." ++ uuid ++ "." ++ toString timestamp ++ "."))) := by
  refine ⟨?_, ?_, ?_, ?_, ?_, ?_, ?_⟩ <;>
    simp [generate_header, pyTruthy, pyOrEmpty, List.lookup]

/-- A concrete keypair whose sign primitive returns the code points of the
message, so that distinct messages have distinct signatures. -/
def echoKeypair : Keypair :=
  { ss58_address := "5addr", sign := fun msg => msg.data.map Char.toNat }

/-- A concrete stand-in for the sha256 hex-digest primitive. -/
def constDigest : List Nat → String := fun _ => "B"

/-- C6 counterexample: at the boundary timestamp 10000 with signed_for "m",
the code signs the message "10000.0.m" — the float rendering of the interval,
with a ".0" suffix — and not the message "10000.m" built from the interval
rendered as a plain decimal integer string, and the two resulting header
values differ. -/
theorem secret_signature_counterexample :
    timestampInterval 10000 = 10000 ∧
    (generate_header constDigest echoKeypair [] (some "m") 10000 "u").lookup
      "Epistula-Secret-Signature-1" =
      some ("0x" ++ bytesHex (echoKeypair.sign "10000.0.m")) ∧
    "0x" ++ bytesHex (echoKeypair.sign "10000.0.m") ≠
      "0x" ++ bytesHex (echoKeypair.sign "10000.m") := by
  decide

/-- C6 amended: timestamp_interval is the timestamp rounded up to the next
multiple of 10000 (a timestamp on a boundary maps to itself, one millisecond
past a boundary maps to the boundary 10000 later), and the three secret
signature headers sign the strings built from interval - 1, interval and
interval + 1, each rendered as a Python float string — the decimal digits
followed by ".0" — joined to signed_for by a dot. -/
theorem secret_signature_bucketing (sha256hex : List Nat → String) (hotkey : Keypair)
    (body : List Nat) (sf : String) (timestamp : Nat) (uuid : String)
    (hsf : sf ≠ "") (ht : 1 ≤ timestamp) :
    (timestamp % 10000 = 0 → timestampInterval timestamp = timestamp) ∧
    (timestamp % 10000 = 1 → timestampInterval timestamp = timestamp + 9999) ∧
    10000 ≤ timestampInterval timestamp ∧
    (generate_header sha256hex hotkey body (some sf) timestamp uuid).lookup
      "Epistula-Secret-Signature-0" =
      some ("0x" ++ bytesHex (hotkey.sign
        (pyFloatIntStr (timestampInterval timestamp - 1) ++ "." ++ sf))) ∧
    (generate_header sha256hex hotkey body (some sf) timestamp uuid).lookup
      "Epistula-Secret-Signature-1" =
      some ("0x" ++ bytesHex (hotkey.sign
        (pyFloatIntStr (timestampInterval timestamp) ++ "." ++ sf))) ∧
    (generate_header sha256hex hotkey body (some sf) timestamp uuid).lookup
      "Epistula-Secret-Signature-2" =
      some ("0x" ++ bytesHex (hotkey.sign
        (pyFloatIntStr (timestampInterval timestamp + 1) ++ "." ++ sf))) := by
  have htr : pyTruthy (some sf) = true := by simp [pyTruthy, hsf]
  refine ⟨?_, ?_, ?_, ?_, ?_, ?_⟩
  · intro h0; simp only [timestampInterval]; omega
  · intro h1; simp only [timestampInterval]; omega
  · simp only [timestampInterval]; omega
  all_goals simp [generate_header, htr, pyOrEmpty, List.lookup]

/-- Witness for the amended C6 at the boundary timestamp 10000: the interval
stays 10000 and the middle secret signature signs "10000.0.m". -/
theorem secret_signature_bucketing_witness :
    timestampInterval 10000 = 10000 ∧
    10000 ≤ timestampInterval 10000 ∧
    (generate_header constDigest echoKeypair [] (some "m") 10000 "uu").lookup
      "Epistula-Secret-Signature-1" =
      some ("0x" ++ bytesHex (echoKeypair.sign
        (pyFloatIntStr (timestampInterval 10000) ++ "." ++ "m"))) := by
  have h := secret_signature_bucketing constDigest echoKeypair [] "m" 10000 "uu"
    (by decide) (by decide)
  exact ⟨h.1 (by decide), h.2.2.1, h.2.2.2.2.1⟩

/-- An upstream HTTP response as seen through the httpx client: status code,
decoded body text, raw body bytes and the optional content-type header. -/
structure HResponse where
  status_code : Nat
  text : String
  content : List Nat
  content_type : Option String
deriving Repr, DecidableEq, Inhabited

/-- What the wire did for one attempt before any status handling: either a
transport/timeout error, or a reply from the miner. -/
inductive Upstream where
  | transportError
  | reply (r : HResponse)

/-- httpx Response.is_success: a 2xx status code.  Response.raise_for_status
raises HTTPStatusError for every response that is not a success —
informational, redirect, client-error and server-error classes alike. -/
def isSuccessStatus (r : HResponse) : Bool :=
  decide (200 ≤ r.status_code) && decide (r.status_code < 300)

/-- Whether the first character list is a leading segment of the second. -/
def charsLead : List Char → List Char → Bool
  | [], _ => true
  | _ :: _, [] => false
  | a :: pat, b :: hay => a == b && charsLead pat hay

/-- Whether the pattern occurs contiguously inside the character list. -/
def charsContain (pat : List Char) : List Char → Bool
  | [] => charsLead pat []
  | b :: hay => charsLead pat (b :: hay) || charsContain pat hay

/-- Python `pattern in text` on strings: substring containment. -/
def strContainsSub (haystack pat : String) : Bool :=
  charsContain pat.data haystack.data

/-- _post_to_miner of src/app/main.py, given the outcome on the wire: a
transport/timeout error is caught and returned as (miner, none); a reply goes
through resp.raise_for_status(), whose HTTPStatusError on every non-2xx reply
is caught by the same except and returned as (miner, none); a 2xx reply is
returned as (miner, some reply). -/
def post_to_miner (miner : Miner) (u : Upstream) : Miner × Option HResponse :=
  match u with
  | .transportError => (miner, none)
  | .reply r => if isSuccessStatus r then (miner, some r) else (miner, none)

/-- The winner test applied by post_to_miners_first to one completed attempt:
response is not None, response.status_code < 400, and "Internal Server Error"
does not occur in response.text. -/
def qualifies : Option HResponse → Bool
  | none => false
  | some r => decide (r.status_code < 400) &&
      !(strContainsSub r.text "Internal Server Error")

/-- post_to_miners_first of src/app/main.py over a known completion order: the
completed attempts are listed with their completion times, earliest first, each
already reduced by post_to_miner.  Iteration follows asyncio.as_completed under
the overall timeout: an attempt completing at or past the deadline is never
delivered — the wait raises TimeoutError, the remaining tasks are cancelled and
the race returns (none, none); a delivered qualifying attempt wins and cancels
the rest; a delivered non-qualifying attempt is skipped; an exhausted list
ends with (none, none). -/
def post_to_miners_first (overall_timeout : Rat) :
    List (Rat × Miner × Option HResponse) → Option Miner × Option HResponse
  | [] => (none, none)
  | (t, miner, response) :: rest =>
    if overall_timeout ≤ t then (none, none)
    else if qualifies response then (some miner, response)
    else post_to_miners_first overall_timeout rest

/-- The qualification criterion in the words of the claim: no transport or
timeout error, status code below 400, and no "Internal Server Error" in the
body text.  Stated only to compare against what the code implements. -/
def claimed_qualifies : Upstream → Bool
  | .transportError => false
  | .reply r => decide (r.status_code < 400) &&
      !(strContainsSub r.text "Internal Server Error")

/-- The qualification criterion the code actually implements for one attempt:
no transport error, a 2xx status — raise_for_status inside _post_to_miner
rejects every non-2xx reply before the status < 400 test can see it — and no
embedded error marker. -/
def amended_qualifies : Upstream → Bool
  | .transportError => false
  | .reply r => isSuccessStatus r &&
      !(strContainsSub r.text "Internal Server Error")

/-- A concrete miner used to instantiate race theorems. -/
def minerA : Miner := ⟨"hkA", ⟨"10.0.0.1", 81⟩, "http://10.0.0.1:81"⟩

/-- A second concrete miner used to instantiate race theorems. -/
def minerB : Miner := ⟨"hkB", ⟨"10.0.0.2", 82⟩, "http://10.0.0.2:82"⟩

/-- A redirect reply: transport succeeded and the status code is below 400. -/
def redirectReply : HResponse := ⟨301, "moved", [], none⟩

/-- A plain 200 reply. -/
def okReply : HResponse := ⟨200, "ok", [111, 107], some "text/plain"⟩

/-- C1 counterexample: a 301 reply raised no transport/timeout error, has
status below 400 and carries no error marker, so under the claim it qualifies
and, completing first, should win the race; but _post_to_miner turns it into a
failed attempt (raise_for_status raises on every non-2xx), so the race skips
it and returns the later 200 attempt. -/
theorem race_qualification_counterexample :
    claimed_qualifies (.reply redirectReply) = true ∧
    (post_to_miner minerA (.reply redirectReply)).2 = none ∧
    qualifies (post_to_miner minerA (.reply redirectReply)).2 = false ∧
    post_to_miners_first 30
      [(1, minerA, (post_to_miner minerA (.reply redirectReply)).2),
       (2, minerB, (post_to_miner minerB (.reply okReply)).2)] =
      (some minerB, some okReply) := by
  decide

/-- C1 amended: an attempt qualifies iff it raised no transport/timeout error,
its status code is a 2xx success (raise_for_status rejects every non-2xx reply,
so the status < 400 test never sees 1xx or 3xx replies) and its body text does
not contain "Internal Server Error"; for every completion order the race
returns the miner and response of the earliest-completing qualifying attempt
delivered before the overall deadline, however many non-qualifying attempts
complete earlier. -/
theorem race_first_qualifying (overall : Rat)
    (pre : List (Rat × Miner × Option HResponse)) (t : Rat) (miner : Miner)
    (response : Option HResponse) (rest : List (Rat × Miner × Option HResponse))
    (hpre : ∀ e ∈ pre, e.1 < overall ∧ qualifies e.2.2 = false)
    (ht : t < overall) (hq : qualifies response = true) :
    post_to_miners_first overall (pre ++ (t, miner, response) :: rest) =
      (some miner, response) ∧
    ∀ (m : Miner) (u : Upstream),
      qualifies (post_to_miner m u).2 = amended_qualifies u := by
  constructor
  · induction pre with
    | nil =>
      simp only [List.nil_append, post_to_miners_first]
      rw [if_neg (not_le.mpr ht), if_pos hq]
    | cons e pre ih =>
      obtain ⟨he1, he2⟩ := hpre e (List.mem_cons_self e pre)
      obtain ⟨te, me, re⟩ := e
      simp only [List.cons_append, post_to_miners_first]
      rw [if_neg (not_le.mpr he1), if_neg (by simp [he2])]
      exact ih (fun x hx => hpre x (List.mem_cons_of_mem _ hx))
  · intro m u
    cases u with
    | transportError => rfl
    | reply r =>
      cases hs : isSuccessStatus r with
      | true =>
        have hlt : r.status_code < 400 := by
          have h300 := hs
          simp only [isSuccessStatus, Bool.and_eq_true, decide_eq_true_eq] at h300
          omega
        simp [post_to_miner, hs, qualifies, amended_qualifies, hlt]
      | false =>
        simp [post_to_miner, hs, qualifies, amended_qualifies]

/-- Witness for the amended C1: a failed attempt completes at t = 1, a
qualifying 200 attempt at t = 2, and the race returns the latter. -/
theorem race_first_qualifying_witness :
    post_to_miners_first 30 [(1, minerA, none), (2, minerB, some okReply)] =
      (some minerB, some okReply) :=
  (race_first_qualifying 30 [(1, minerA, none)] 2 minerB (some okReply) []
    (by decide) (by decide) (by decide)).1

lemma race_none_of_no_qualify (overall : Rat) :
    ∀ completed : List (Rat × Miner × Option HResponse),
      (∀ e ∈ completed, e.1 < overall → qualifies e.2.2 = false) →
      post_to_miners_first overall completed = (none, none)
  | [], _ => rfl
  | (t, miner, response) :: rest, h => by
    by_cases hto : overall ≤ t
    · simp [post_to_miners_first, hto]
    · have hq := h (t, miner, response) (List.mem_cons_self _ _) (not_le.mp hto)
      simp only [post_to_miners_first, if_neg hto]
      rw [if_neg (by simp [hq])]
      exact race_none_of_no_qualify overall rest
        (fun x hx hxlt => h x (List.mem_cons_of_mem _ hx) hxlt)

/-- Outcome of the completion endpoint as seen by the client: either a raised
HTTPException or a proxied Response. -/
inductive ClientResponse where
  | httpError (status_code : Nat) (detail : String)
  | ok (status_code : Nat) (media_type : String) (content : List Nat)
deriving Repr, DecidableEq

/-- The tail of create_completion in src/app/main.py, after the race: when the
race produced no response, HTTPException(status_code=502, ...) is raised;
otherwise the winning upstream response is proxied back with its body bytes,
the upstream content-type header when present and "application/octet-stream"
otherwise, and — because the Response constructor is called without a
status_code argument — the framework default status 200. -/
def create_completion_respond (race_result : Option Miner × Option HResponse) :
    ClientResponse :=
  match race_result.2 with
  | none => .httpError 502 "No miners responded successfully in time"
  | some upstream_response =>
    let content_type := upstream_response.content_type.getD "application/octet-stream"
    .ok 200 content_type upstream_response.content

/-- C7: when no attempt qualifies before the overall deadline — attempts that
would qualify later included — the race returns (none, none), and the
completion endpoint then raises the 502 gateway error. -/
theorem race_timeout_502 (overall : Rat)
    (completed : List (Rat × Miner × Option HResponse))
    (h : ∀ e ∈ completed, e.1 < overall → qualifies e.2.2 = false) :
    post_to_miners_first overall completed = (none, none) ∧
    create_completion_respond (post_to_miners_first overall completed) =
      .httpError 502 "No miners responded successfully in time" := by
  have hmain := race_none_of_no_qualify overall completed h
  exact ⟨hmain, by rw [hmain]; rfl⟩

/-- Witness for C7: the only attempt would qualify but completes at t = 40,
past the 30 second deadline, so the race yields nothing and the client view is
the 502 error. -/
theorem race_timeout_502_witness :
    post_to_miners_first 30 [(40, minerA, some okReply)] = (none, none) ∧
    create_completion_respond (post_to_miners_first 30 [(40, minerA, some okReply)]) =
      .httpError 502 "No miners responded successfully in time" :=
  race_timeout_502 30 [(40, minerA, some okReply)] (by decide)

/-- A qualifying reply whose status is 201, not 200. -/
def createdReply : HResponse := ⟨201, "created", [99], some "application/json"⟩

/-- C9 counterexample: a winning upstream response with status 201 is proxied
to the client with status 200 — the Response constructor is called without the
upstream status code, so the status is not proxied verbatim. -/
theorem proxy_status_counterexample :
    amended_qualifies (.reply createdReply) = true ∧
    post_to_miners_first 30
      [(1, minerA, (post_to_miner minerA (.reply createdReply)).2)] =
      (some minerA, some createdReply) ∧
    create_completion_respond (some minerA, some createdReply) =
      .ok 200 "application/json" [99] ∧
    createdReply.status_code = 201 ∧ (201 : Nat) ≠ 200 := by
  decide

/-- C9 amended: on a race win the client response carries the upstream body
bytes unchanged and the upstream content-type header, defaulting to
"application/octet-stream" when absent, but its status code is always the
framework default 200; the upstream status code is not forwarded. -/
theorem proxy_on_win (overall : Rat)
    (completed : List (Rat × Miner × Option HResponse))
    (miner : Miner) (r : HResponse)
    (hw : post_to_miners_first overall completed = (some miner, some r)) :
    create_completion_respond (post_to_miners_first overall completed) =
      .ok 200 (r.content_type.getD "application/octet-stream") r.content := by
  rw [hw]; rfl

/-- Witness for the amended C9: the 200/"text/plain"/"ok" winner is proxied
with its bytes and content type and with client status 200. -/
theorem proxy_on_win_witness :
    create_completion_respond (post_to_miners_first 30 [(1, minerB, some okReply)]) =
      .ok 200 "text/plain" [111, 107] :=
  proxy_on_win 30 [(1, minerB, some okReply)] minerB okReply (by decide)

/-- The metagraph cache slots of app.state: the cached snapshot (or none) and
the fetch timestamp in epoch seconds. -/
structure CacheState where
  metagraph_value : Option Metagraph
  metagraph_ts : Rat

/-- CACHE_TTL_SECONDS = 300 of src/app/main.py. -/
def CACHE_TTL_SECONDS : Rat := 300

/-- get_metagraph_cached of src/app/main.py.  The chain read
subtensor.metagraph(1) is external and enters as mfetch; the wall clock reading
time.time() enters as now.  The result carries the returned snapshot, the app
state after the call, and the number of chain fetches performed (0 or 1), so
that "exactly one fetch" is visible in the embedding. -/
def get_metagraph_cached (mfetch : Nat → Metagraph) (st : CacheState) (now : Rat) :
    Metagraph × CacheState × Nat :=
  match st.metagraph_value with
  | none =>
    let fresh := mfetch 1
    (fresh, { metagraph_value := some fresh, metagraph_ts := now }, 1)
  | some cached_value =>
    if now - st.metagraph_ts ≥ CACHE_TTL_SECONDS then
      let fresh := mfetch 1
      (fresh, { metagraph_value := some fresh, metagraph_ts := now }, 1)
    else (cached_value, st, 0)

/-- C8: a read with a cached value younger than 300 seconds returns that value
with no fetch and no state change; a read with no cached value, or with a
cached value aged 300 seconds or more, performs exactly one fetch of subnet 1,
stores the fresh snapshot with the read time as timestamp, and returns it. -/
theorem metagraph_cache_ttl (mfetch : Nat → Metagraph) (st : CacheState) (now : Rat) :
    (∀ v, st.metagraph_value = some v →
      now - st.metagraph_ts < CACHE_TTL_SECONDS →
      get_metagraph_cached mfetch st now = (v, st, 0)) ∧
    (st.metagraph_value = none ∨ now - st.metagraph_ts ≥ CACHE_TTL_SECONDS →
      get_metagraph_cached mfetch st now =
        (mfetch 1, { metagraph_value := some (mfetch 1), metagraph_ts := now }, 1)) := by
  constructor
  · intro v hv hfresh
    simp [get_metagraph_cached, hv, if_neg (not_le.mpr hfresh)]
  · intro hcase
    rcases hcase with hnone | hstale
    · simp [get_metagraph_cached, hnone]
    · cases hv : st.metagraph_value with
      | none => simp [get_metagraph_cached, hv]
      | some v => simp [get_metagraph_cached, hv, if_pos hstale]

/-- A concrete cache state holding the example snapshot fetched at time 0. -/
def cachedExampleState : CacheState := ⟨some exampleMetagraph, 0⟩

/-- A concrete chain read returning the duplicate-worker snapshot. -/
def fetchDup : Nat → Metagraph := fun _ => dupMetagraph

/-- Witness for C8: at age 100 the cached snapshot comes back with no fetch; at
age exactly 300 one fetch replaces it and the timestamp becomes the read
time. -/
theorem metagraph_cache_ttl_witness :
    get_metagraph_cached fetchDup cachedExampleState 100 =
      (exampleMetagraph, cachedExampleState, 0) ∧
    get_metagraph_cached fetchDup cachedExampleState 300 =
      (dupMetagraph, { metagraph_value := some dupMetagraph, metagraph_ts := 300 }, 1) :=
  ⟨(metagraph_cache_ttl fetchDup cachedExampleState 100).1 exampleMetagraph rfl
      (by norm_num [cachedExampleState, CACHE_TTL_SECONDS]),
   (metagraph_cache_ttl fetchDup cachedExampleState 300).2
      (Or.inr (by norm_num [cachedExampleState, CACHE_TTL_SECONDS]))⟩

end FireApi
